import Mathlib

/-!
Shallow embedding of `unique_template_discovery.py`: the online
near-duplicate template discovery engine.  Pure computations
(perceptual-hash comparison, the uniqueness scan) are Lean functions;
the control loop (`main`) is explicit state passing over a `DriverState`,
parametrised by an `Env` of external capabilities (S3 object retrieval,
PDF rendering, the perceptual hash itself, and the success/failure of
local file writes).  Each external call that the Python code performs is
recorded in an event trace, so that claims about "no retrieval call",
"no fingerprint computed", "nothing persisted" can be stated about the
trace.
-/

namespace TemplateDiscovery

/-- A perceptual hash: a fixed-length bit vector (imagehash stores the
hash as a boolean array; `h1 - h2` is the count of differing bits). -/
abbrev Fingerprint := List Bool

/-- Hamming distance between two fingerprints: count of differing bits.
This is what `phash - existing_hash` computes in the Python code. -/
def hammingDist (a b : Fingerprint) : Nat :=
  (List.zipWith (fun x y => x != y) a b).count true

/-- Rendered page images are abstract values supplied by the renderer. -/
abbrev Image := Nat

/-- A retrieved byte payload (the body of an S3 `get_object` response). -/
abbrev Bytes := List Nat

/-- CONFIGURATION BLOCK constant: `TARGET_LIMIT = 1000`. -/
def TARGET_LIMIT : Nat := 1000

/-- CONFIGURATION BLOCK constant: `HASH_THRESHOLD = 12`. -/
def HASH_THRESHOLD : Nat := 12

/-- The static configuration read once at startup. -/
structure Config where
  targetLimit : Nat
  hashThreshold : Nat
deriving Repr, DecidableEq

/-- The configuration the script actually runs with. -/
def defaultConfig : Config := ⟨TARGET_LIMIT, HASH_THRESHOLD⟩

/-- Lines 108-112: the uniqueness scan.  `is_unique` starts `True`; the
loop walks `unique_template_hashes` in insertion order and sets it to
`False`, breaking, at the first entry within `HASH_THRESHOLD`. -/
def isUniqueAgainst (threshold : Nat) (phash : Fingerprint) :
    List Fingerprint → Bool
  | [] => true
  | h :: rest =>
    if hammingDist phash h ≤ threshold then false
    else isUniqueAgainst threshold phash rest

/-- The duplicate decision of the Similarity Oracle: the candidate is a
duplicate exactly when the uniqueness scan rejects it. -/
def isDuplicate (threshold : Nat) (phash : Fingerprint)
    (set : List Fingerprint) : Bool :=
  !(isUniqueAgainst threshold phash set)

/-- Keys and filenames, as sequences of characters (so that all the
string operations the script uses reduce definitionally). -/
abbrev Str := List Char

/-- Python `str.lower()`. -/
def lowerStr (s : Str) : Str := s.map Char.toLower

/-- Python `str.endswith(suffix)`. -/
def endsWithStr (s suffix : Str) : Bool := suffix.isSuffixOf s

/-- Line 85 / line 45: `key.lower().endswith('.pdf')`. -/
def isPdfName (s : Str) : Bool := endsWithStr (lowerStr s) ".pdf".data

/-- `os.path.basename`: the part of the key after the last slash. -/
def basename (key : Str) : Str :=
  (key.splitOn '/').getLastD []

/-- The external capabilities the script calls.  Fallible calls return
`Except Unit` (an `error` is a Python exception at that call site);
`writeFails` tells whether `open(local_path, 'wb')` raises for a given
filename (when it raises, no file appears on disk). -/
structure Env where
  /-- `s3.get_object(...)['Body'].read()` for a key. -/
  getObject : Str → Except Unit Bytes
  /-- `convert_from_path(path, first_page, last_page)`. -/
  convert_from_path : Str → Nat → Nat → Except Unit (List Image)
  /-- `convert_from_bytes(bytes, first_page, last_page)`. -/
  convert_from_bytes : Bytes → Nat → Nat → Except Unit (List Image)
  /-- `imagehash.phash(image, hash_size)`. -/
  phash : Image → Nat → Fingerprint
  /-- Whether `open(local_path, 'wb')` raises for this filename. -/
  writeFails : Str → Bool

/-- The mutable state of one run of `main`:
`unique_template_hashes`, the set of filenames present in
`TEMPLATES_DIR`, and `downloaded_count`. -/
structure DriverState where
  hashes : List Fingerprint
  localFiles : List Str
  count : Nat
deriving Repr, DecidableEq

/-- Externally visible actions of the Discovery Driver, for stating
frame conditions ("no retrieval call", "no fingerprint computed",
"nothing persisted", "no enumeration"). -/
inductive Event where
  /-- An `s3.get_object` call for this key (line 97). -/
  | getObject (key : Str)
  /-- A `imagehash.phash` computation for this key (line 105). -/
  | fingerprintOf (key : Str)
  /-- A successful `open(local_path, 'wb').write(...)` (lines 119-120). -/
  | persist (filename : Str)
  /-- One advance of the `list_objects_v2` page iterator (line 75). -/
  | fetchPage
deriving Repr, DecidableEq

/-- Lines 53-57 (bootstrap path): render the first page of a local file
(`first_page=1, last_page=1`) and hash it with `hash_size=8`; `none`
when rendering raises or yields no page. -/
def bootstrapFingerprint (env : Env) (path : Str) : Option Fingerprint :=
  match env.convert_from_path path 1 1 with
  | .error _ => none
  | .ok [] => none
  | .ok (img :: _) => some (env.phash img 8)

/-- Lines 100-105 (discovery path): render the first page of a byte
payload (`first_page=1, last_page=1`) and hash it with `hash_size=8`;
`none` when rendering raises or yields no page. -/
def discoveryFingerprint (env : Env) (pdf_bytes : Bytes) : Option Fingerprint :=
  match env.convert_from_bytes pdf_bytes 1 1 with
  | .error _ => none
  | .ok [] => none
  | .ok (img :: _) => some (env.phash img 8)

/-- PHASE 0 (lines 45-59): list the local files ending in `.pdf`
(case-insensitively), hash each, skipping silently any file whose
rendering fails.  `existingAll` is everything in `TEMPLATES_DIR`. -/
def bootstrap (env : Env) (existingAll : List Str) : List Fingerprint :=
  let existing_files := existingAll.filter (fun f => isPdfName f)
  existing_files.filterMap (fun filename => bootstrapFingerprint env filename)

/-- One S3 object reference as listed in a page's `Contents`. -/
structure S3Obj where
  key : Str
deriving Repr, DecidableEq

/-- One page of the paginated enumeration: `contents = none` models a
page with no `Contents` entry (lines 76-77). -/
structure Page where
  contents : Option (List S3Obj)
deriving Repr, DecidableEq

/-- Lines 84-129: the per-object evaluation.  Skips non-`.pdf` keys;
fast-skips keys whose derived filename already exists locally; otherwise
retrieves, renders, hashes, and scans the Template Set; a unique
candidate is appended to `unique_template_hashes` and `downloaded_count`
is incremented BEFORE the payload is written, and the `except` swallows
a write failure, so a failing write still leaves the entry appended. -/
def evalObject (env : Env) (cfg : Config) (st : DriverState) (key : Str) :
    DriverState × List Event :=
  if !(isPdfName key) then (st, [])
  else
    let filename := basename key
    if st.localFiles.contains filename then (st, [])
    else
      match env.getObject key with
      | .error _ => (st, [.getObject key])
      | .ok pdf_bytes =>
        match env.convert_from_bytes pdf_bytes 1 1 with
        | .error _ => (st, [.getObject key])
        | .ok [] => (st, [.getObject key])
        | .ok (img :: _) =>
          let phash := env.phash img 8
          if isUniqueAgainst cfg.hashThreshold phash st.hashes then
            if env.writeFails filename then
              (⟨st.hashes ++ [phash], st.localFiles, st.count + 1⟩,
                [.getObject key, .fingerprintOf key])
            else
              (⟨st.hashes ++ [phash], st.localFiles ++ [filename], st.count + 1⟩,
                [.getObject key, .fingerprintOf key, .persist filename])
          else (st, [.getObject key, .fingerprintOf key])

/-- Result of scanning the objects of one page: final state, trace, and
whether the `downloaded_count >= TARGET_LIMIT` check fired (a `return`
from `main`). -/
structure ObjsResult where
  st : DriverState
  trace : List Event
  hitLimit : Bool
deriving Repr, DecidableEq

/-- Lines 79-129: the loop over one page's `Contents`.  The target-limit
check runs before EVERY object, so the scan can stop mid-page. -/
def runObjects (env : Env) (cfg : Config) (st : DriverState) :
    List S3Obj → ObjsResult
  | [] => ⟨st, [], false⟩
  | obj :: rest =>
    if cfg.targetLimit ≤ st.count then ⟨st, [], true⟩
    else
      let e := evalObject env cfg st obj.key
      let r := runObjects env cfg e.1 rest
      ⟨r.st, e.2 ++ r.trace, r.hitLimit⟩

/-- Why a run of the page loop ended. -/
inductive Outcome where
  /-- The `downloaded_count >= TARGET_LIMIT` `return` (lines 80-82). -/
  | targetReached
  /-- The page iterator was exhausted normally. -/
  | sourceExhausted
  /-- The page iterator raised; caught at lines 133-134. -/
  | fatalError
deriving Repr, DecidableEq

/-- Result of the page loop: final state, trace, and outcome. -/
structure RunResult where
  st : DriverState
  trace : List Event
  outcome : Outcome
deriving Repr, DecidableEq

/-- Lines 74-134: the loop over pages.  An `error` entry is an exception
raised while advancing the page iterator itself: it escapes the inner
loops and is caught only at the top level, ending the run with the state
reached so far.  A page without `Contents` is skipped. -/
def runPages (env : Env) (cfg : Config) (st : DriverState) :
    List (Except Unit Page) → RunResult
  | [] => ⟨st, [], .sourceExhausted⟩
  | .error _ :: _ => ⟨st, [.fetchPage], .fatalError⟩
  | .ok page :: rest =>
    match page.contents with
    | none =>
      let r := runPages env cfg st rest
      ⟨r.st, .fetchPage :: r.trace, r.outcome⟩
    | some objs =>
      let r := runObjects env cfg st objs
      if r.hitLimit then ⟨r.st, .fetchPage :: r.trace, .targetReached⟩
      else
        let r' := runPages env cfg r.st rest
        ⟨r'.st, .fetchPage :: (r.trace ++ r'.trace), r'.outcome⟩

/-- `main` (lines 30-136): bootstrap from the local directory, then, if
the target is not already met, run the S3 discovery loop.  When the
bootstrap count already meets the limit, `main` returns at line 66,
before the paginator is even created. -/
def mainRun (env : Env) (cfg : Config) (existingAll : List Str)
    (pages : List (Except Unit Page)) : RunResult :=
  let unique_template_hashes := bootstrap env existingAll
  let downloaded_count := unique_template_hashes.length
  if cfg.targetLimit ≤ downloaded_count then
    ⟨⟨unique_template_hashes, existingAll, downloaded_count⟩, [], .targetReached⟩
  else
    runPages env cfg ⟨unique_template_hashes, existingAll, downloaded_count⟩ pages

/-- The claimed Template Set invariant, as the spec words it: every two
distinct entries are strictly more than `t` bits apart. -/
def pairwiseSeparated (t : Nat) (l : List Fingerprint) : Prop :=
  ∀ i j, i < l.length → j < l.length → i ≠ j →
    t < hammingDist (l.getD i []) (l.getD j [])

/-- A 16-bit all-ones fingerprint, for concrete runs. -/
def fpOnes : Fingerprint := List.replicate 16 true

/-- A 16-bit all-zeros fingerprint: 16 bits from `fpOnes`, which is
more than `HASH_THRESHOLD = 12`. -/
def fpZeros : Fingerprint := List.replicate 16 false

/-- A degenerate environment: every retrieval succeeds, every document
renders to one page, and every page hashes to the same fingerprint
`fp`; local writes fail iff `wf`. -/
def constEnv (fp : Fingerprint) (wf : Bool) : Env :=
  ⟨fun _ => .ok [1], fun _ _ _ => .ok [0], fun _ _ _ => .ok [0],
    fun _ _ => fp, fun _ => wf⟩

/-- An environment whose fingerprints depend on the document: a key or
path maps to a payload holding its length, short documents hash to
`fpOnes` and long ones to `fpZeros`.  All writes succeed. -/
def envW : Env :=
  ⟨fun k => .ok [k.length], fun p _ _ => .ok [p.length],
    fun b _ _ => .ok [b.headD 0],
    fun i _ => if i ≤ 5 then fpOnes else fpZeros, fun _ => false⟩

/-- An environment where every single-object retrieval raises. -/
def envGetFail : Env :=
  ⟨fun _ => .error (), fun _ _ _ => .ok [0], fun _ _ _ => .ok [0],
    fun _ _ => fpOnes, fun _ => false⟩

/-- One listing page holding two distinct-looking documents. -/
def pagesW : List (Except Unit Page) :=
  [.ok ⟨some [⟨"a.pdf".data⟩, ⟨"bb.pdf".data⟩]⟩]

/-! ### Basic lemmas about the Similarity Oracle -/

theorem hammingDist_comm (a b : Fingerprint) : hammingDist a b = hammingDist b a := by
  unfold hammingDist
  have : List.zipWith (fun x y => x != y) a b = List.zipWith (fun x y => x != y) b a := by
    induction a generalizing b with
    | nil => cases b <;> simp
    | cons x xs ih =>
      cases b with
      | nil => simp
      | cons y ys =>
        rw [List.zipWith_cons_cons, List.zipWith_cons_cons, ih]
        congr 1
        cases x <;> cases y <;> rfl
  rw [this]

theorem isUniqueAgainst_eq_true_iff (t : Nat) (fp : Fingerprint)
    (l : List Fingerprint) :
    isUniqueAgainst t fp l = true ↔ ∀ h ∈ l, t < hammingDist fp h := by
  induction l with
  | nil => simp [isUniqueAgainst]
  | cons h rest ih =>
    have hstep : isUniqueAgainst t fp (h :: rest) =
        if hammingDist fp h ≤ t then false else isUniqueAgainst t fp rest := rfl
    constructor
    · intro htrue h' hmem
      rw [hstep] at htrue
      by_cases hle : hammingDist fp h ≤ t
      · rw [if_pos hle] at htrue
        exact absurd htrue (by simp)
      · rw [if_neg hle] at htrue
        rcases List.mem_cons.1 hmem with rfl | hmem'
        · omega
        · exact ih.1 htrue h' hmem'
    · intro hall
      rw [hstep]
      have h1 := hall h (List.mem_cons_self h rest)
      rw [if_neg (by omega)]
      exact ih.2 (fun h' hm => hall h' (List.mem_cons_of_mem h hm))

theorem isDuplicate_eq_true_iff (t : Nat) (fp : Fingerprint)
    (l : List Fingerprint) :
    isDuplicate t fp l = true ↔ ∃ h ∈ l, hammingDist fp h ≤ t := by
  constructor
  · intro hdup
    by_contra habs
    push_neg at habs
    have htrue : isUniqueAgainst t fp l = true :=
      (isUniqueAgainst_eq_true_iff t fp l).2 habs
    rw [isDuplicate, htrue] at hdup
    simp at hdup
  · rintro ⟨h, hm, hle⟩
    rw [isDuplicate]
    cases hu : isUniqueAgainst t fp l with
    | false => rfl
    | true => exact absurd ((isUniqueAgainst_eq_true_iff t fp l).1 hu h hm) (by omega)

/-! ### Unfolding lemmas for the per-object evaluation -/

theorem evalObject_nonPdf (env : Env) (cfg : Config) (st : DriverState)
    (key : Str) (h : isPdfName key = false) :
    evalObject env cfg st key = (st, []) := by
  simp [evalObject, h]

theorem evalObject_fastSkip (env : Env) (cfg : Config) (st : DriverState)
    (key : Str) (h1 : isPdfName key = true)
    (h2 : st.localFiles.contains (basename key) = true) :
    evalObject env cfg st key = (st, []) := by
  have h2' : basename key ∈ st.localFiles := by simpa using h2
  simp [evalObject, h1, h2']

theorem evalObject_getFail (env : Env) (cfg : Config) (st : DriverState)
    (key : Str) (h1 : isPdfName key = true)
    (h2 : st.localFiles.contains (basename key) = false)
    (h3 : env.getObject key = .error ()) :
    evalObject env cfg st key = (st, [.getObject key]) := by
  have h2' : basename key ∉ st.localFiles := by simpa using h2
  simp [evalObject, h1, h2', h3]

theorem evalObject_renderFail (env : Env) (cfg : Config) (st : DriverState)
    (key : Str) (pdf_bytes : Bytes) (h1 : isPdfName key = true)
    (h2 : st.localFiles.contains (basename key) = false)
    (h3 : env.getObject key = .ok pdf_bytes)
    (h4 : env.convert_from_bytes pdf_bytes 1 1 = .error ()) :
    evalObject env cfg st key = (st, [.getObject key]) := by
  have h2' : basename key ∉ st.localFiles := by simpa using h2
  simp [evalObject, h1, h2', h3, h4]

theorem evalObject_renderEmpty (env : Env) (cfg : Config) (st : DriverState)
    (key : Str) (pdf_bytes : Bytes) (h1 : isPdfName key = true)
    (h2 : st.localFiles.contains (basename key) = false)
    (h3 : env.getObject key = .ok pdf_bytes)
    (h4 : env.convert_from_bytes pdf_bytes 1 1 = .ok []) :
    evalObject env cfg st key = (st, [.getObject key]) := by
  have h2' : basename key ∉ st.localFiles := by simpa using h2
  simp [evalObject, h1, h2', h3, h4]

theorem evalObject_dup (env : Env) (cfg : Config) (st : DriverState)
    (key : Str) (pdf_bytes : Bytes) (img : Image) (tl : List Image)
    (h1 : isPdfName key = true)
    (h2 : st.localFiles.contains (basename key) = false)
    (h3 : env.getObject key = .ok pdf_bytes)
    (h4 : env.convert_from_bytes pdf_bytes 1 1 = .ok (img :: tl))
    (h5 : isUniqueAgainst cfg.hashThreshold (env.phash img 8) st.hashes = false) :
    evalObject env cfg st key = (st, [.getObject key, .fingerprintOf key]) := by
  have h2' : basename key ∉ st.localFiles := by simpa using h2
  simp [evalObject, h1, h2', h3, h4, h5]

theorem evalObject_acceptWriteFail (env : Env) (cfg : Config) (st : DriverState)
    (key : Str) (pdf_bytes : Bytes) (img : Image) (tl : List Image)
    (h1 : isPdfName key = true)
    (h2 : st.localFiles.contains (basename key) = false)
    (h3 : env.getObject key = .ok pdf_bytes)
    (h4 : env.convert_from_bytes pdf_bytes 1 1 = .ok (img :: tl))
    (h5 : isUniqueAgainst cfg.hashThreshold (env.phash img 8) st.hashes = true)
    (h6 : env.writeFails (basename key) = true) :
    evalObject env cfg st key =
      (⟨st.hashes ++ [env.phash img 8], st.localFiles, st.count + 1⟩,
        [.getObject key, .fingerprintOf key]) := by
  have h2' : basename key ∉ st.localFiles := by simpa using h2
  simp [evalObject, h1, h2', h3, h4, h5, h6]

theorem evalObject_acceptWriteOk (env : Env) (cfg : Config) (st : DriverState)
    (key : Str) (pdf_bytes : Bytes) (img : Image) (tl : List Image)
    (h1 : isPdfName key = true)
    (h2 : st.localFiles.contains (basename key) = false)
    (h3 : env.getObject key = .ok pdf_bytes)
    (h4 : env.convert_from_bytes pdf_bytes 1 1 = .ok (img :: tl))
    (h5 : isUniqueAgainst cfg.hashThreshold (env.phash img 8) st.hashes = true)
    (h6 : env.writeFails (basename key) = false) :
    evalObject env cfg st key =
      (⟨st.hashes ++ [env.phash img 8], st.localFiles ++ [basename key], st.count + 1⟩,
        [.getObject key, .fingerprintOf key, .persist (basename key)]) := by
  have h2' : basename key ∉ st.localFiles := by simpa using h2
  simp [evalObject, h1, h2', h3, h4, h5, h6]

/-- Everything `evalObject` can do to the state: either it leaves it
unchanged, or it appends one fingerprint that passed the uniqueness
scan, incrementing the count. -/
theorem evalObject_cases (env : Env) (cfg : Config) (st : DriverState)
    (key : Str) :
    (evalObject env cfg st key).1 = st ∨
    ∃ fp, isUniqueAgainst cfg.hashThreshold fp st.hashes = true ∧
      (evalObject env cfg st key).1.hashes = st.hashes ++ [fp] ∧
      (evalObject env cfg st key).1.count = st.count + 1 := by
  cases hpdf : isPdfName key with
  | false => rw [evalObject_nonPdf env cfg st key hpdf]; left; rfl
  | true =>
  cases hloc : st.localFiles.contains (basename key) with
  | true => rw [evalObject_fastSkip env cfg st key hpdf hloc]; left; rfl
  | false =>
  cases hget : env.getObject key with
  | error e =>
    cases e
    rw [evalObject_getFail env cfg st key hpdf hloc hget]; left; rfl
  | ok pdf_bytes =>
  cases hconv : env.convert_from_bytes pdf_bytes 1 1 with
  | error e =>
    cases e
    rw [evalObject_renderFail env cfg st key pdf_bytes hpdf hloc hget hconv]; left; rfl
  | ok imgs =>
  cases imgs with
  | nil => rw [evalObject_renderEmpty env cfg st key pdf_bytes hpdf hloc hget hconv]; left; rfl
  | cons img tl =>
  cases huniq : isUniqueAgainst cfg.hashThreshold (env.phash img 8) st.hashes with
  | false =>
    rw [evalObject_dup env cfg st key pdf_bytes img tl hpdf hloc hget hconv huniq]; left; rfl
  | true =>
  cases hw : env.writeFails (basename key) with
  | true =>
    rw [evalObject_acceptWriteFail env cfg st key pdf_bytes img tl hpdf hloc hget hconv huniq hw]
    right; exact ⟨env.phash img 8, huniq, rfl, rfl⟩
  | false =>
    rw [evalObject_acceptWriteOk env cfg st key pdf_bytes img tl hpdf hloc hget hconv huniq hw]
    right; exact ⟨env.phash img 8, huniq, rfl, rfl⟩

/-- The per-object evaluation increments the count by at most one. -/
theorem evalObject_count_le (env : Env) (cfg : Config) (st : DriverState)
    (key : Str) :
    (evalObject env cfg st key).1.count ≤ st.count + 1 := by
  rcases evalObject_cases env cfg st key with h | ⟨fp, _, _, hc⟩
  · rw [h]; omega
  · omega

/-! ### Unfolding lemmas for the loops -/

theorem runObjects_nil (env : Env) (cfg : Config) (st : DriverState) :
    runObjects env cfg st [] = ⟨st, [], false⟩ := rfl

theorem runObjects_cons_stop (env : Env) (cfg : Config) (st : DriverState)
    (obj : S3Obj) (rest : List S3Obj) (h : cfg.targetLimit ≤ st.count) :
    runObjects env cfg st (obj :: rest) = ⟨st, [], true⟩ := by
  simp [runObjects, h]

theorem runObjects_cons_go (env : Env) (cfg : Config) (st : DriverState)
    (obj : S3Obj) (rest : List S3Obj) (h : ¬ cfg.targetLimit ≤ st.count) :
    runObjects env cfg st (obj :: rest) =
      ⟨(runObjects env cfg (evalObject env cfg st obj.key).1 rest).st,
        (evalObject env cfg st obj.key).2 ++
          (runObjects env cfg (evalObject env cfg st obj.key).1 rest).trace,
        (runObjects env cfg (evalObject env cfg st obj.key).1 rest).hitLimit⟩ := by
  simp [runObjects, h]

theorem runPages_nil (env : Env) (cfg : Config) (st : DriverState) :
    runPages env cfg st [] = ⟨st, [], .sourceExhausted⟩ := rfl

theorem runPages_error (env : Env) (cfg : Config) (st : DriverState)
    (e : Unit) (rest : List (Except Unit Page)) :
    runPages env cfg st (.error e :: rest) = ⟨st, [.fetchPage], .fatalError⟩ := rfl

theorem runPages_noContents (env : Env) (cfg : Config) (st : DriverState)
    (rest : List (Except Unit Page)) :
    runPages env cfg st (.ok ⟨none⟩ :: rest) =
      ⟨(runPages env cfg st rest).st, .fetchPage :: (runPages env cfg st rest).trace,
        (runPages env cfg st rest).outcome⟩ := rfl

theorem runPages_contents (env : Env) (cfg : Config) (st : DriverState)
    (objs : List S3Obj) (rest : List (Except Unit Page)) :
    runPages env cfg st (.ok ⟨some objs⟩ :: rest) =
      if (runObjects env cfg st objs).hitLimit then
        ⟨(runObjects env cfg st objs).st, .fetchPage :: (runObjects env cfg st objs).trace,
          .targetReached⟩
      else
        ⟨(runPages env cfg (runObjects env cfg st objs).st rest).st,
          .fetchPage :: ((runObjects env cfg st objs).trace ++
            (runPages env cfg (runObjects env cfg st objs).st rest).trace),
          (runPages env cfg (runObjects env cfg st objs).st rest).outcome⟩ := rfl

theorem mainRun_alreadyMet (env : Env) (cfg : Config) (existingAll : List Str)
    (pages : List (Except Unit Page))
    (h : cfg.targetLimit ≤ (bootstrap env existingAll).length) :
    mainRun env cfg existingAll pages =
      ⟨⟨bootstrap env existingAll, existingAll, (bootstrap env existingAll).length⟩,
        [], .targetReached⟩ := by
  simp [mainRun, h]

theorem mainRun_go (env : Env) (cfg : Config) (existingAll : List Str)
    (pages : List (Except Unit Page))
    (h : ¬ cfg.targetLimit ≤ (bootstrap env existingAll).length) :
    mainRun env cfg existingAll pages =
      runPages env cfg
        ⟨bootstrap env existingAll, existingAll, (bootstrap env existingAll).length⟩
        pages := by
  simp [mainRun, h]

/-! ### The count never exceeds the target limit during discovery -/

theorem runObjects_count_le (env : Env) (cfg : Config) (st : DriverState)
    (objs : List S3Obj) (h : st.count ≤ cfg.targetLimit) :
    (runObjects env cfg st objs).st.count ≤ cfg.targetLimit := by
  induction objs generalizing st with
  | nil => rw [runObjects_nil]; exact h
  | cons obj rest ih =>
    by_cases hc : cfg.targetLimit ≤ st.count
    · rw [runObjects_cons_stop env cfg st obj rest hc]; exact h
    · rw [runObjects_cons_go env cfg st obj rest hc]
      apply ih
      have := evalObject_count_le env cfg st obj.key
      omega

theorem runPages_count_le (env : Env) (cfg : Config) (st : DriverState)
    (pages : List (Except Unit Page)) (h : st.count ≤ cfg.targetLimit) :
    (runPages env cfg st pages).st.count ≤ cfg.targetLimit := by
  induction pages generalizing st with
  | nil => rw [runPages_nil]; exact h
  | cons p rest ih =>
    cases p with
    | error e => rw [runPages_error]; exact h
    | ok page =>
      cases page with
      | mk contents =>
        cases contents with
        | none => rw [runPages_noContents]; exact ih st h
        | some objs =>
          rw [runPages_contents]
          have hobjs := runObjects_count_le env cfg st objs h
          by_cases hl : (runObjects env cfg st objs).hitLimit
          · simp only [hl, if_true]; exact hobjs
          · simp only [hl, if_false]; exact ih _ hobjs

/-! ### The growth discipline of the Template Set during discovery -/

/-- How the Template Set grows during discovery: starting from `base`,
every appended fingerprint passed the uniqueness scan against the
WHOLE set at the moment it was appended. -/
inductive GrownSeparated (t : Nat) : List Fingerprint → List Fingerprint → Prop where
  | refl (l : List Fingerprint) : GrownSeparated t l l
  | snoc {base l : List Fingerprint} {h : Fingerprint} :
      GrownSeparated t base l → isUniqueAgainst t h l = true →
      GrownSeparated t base (l ++ [h])

theorem GrownSeparated.trans {t : Nat} {a b c : List Fingerprint}
    (h1 : GrownSeparated t a b) (h2 : GrownSeparated t b c) :
    GrownSeparated t a c := by
  induction h2 with
  | refl => exact h1
  | snoc hg hu ih => exact .snoc ih hu

theorem evalObject_grown (env : Env) (cfg : Config) (st : DriverState)
    (key : Str) :
    GrownSeparated cfg.hashThreshold st.hashes (evalObject env cfg st key).1.hashes := by
  rcases evalObject_cases env cfg st key with h | ⟨fp, hu, hh, _⟩
  · rw [h]; exact .refl _
  · rw [hh]; exact .snoc (.refl _) hu

theorem runObjects_grown (env : Env) (cfg : Config) (st : DriverState)
    (objs : List S3Obj) :
    GrownSeparated cfg.hashThreshold st.hashes (runObjects env cfg st objs).st.hashes := by
  induction objs generalizing st with
  | nil => exact .refl _
  | cons obj rest ih =>
    by_cases hc : cfg.targetLimit ≤ st.count
    · rw [runObjects_cons_stop env cfg st obj rest hc]; exact .refl _
    · rw [runObjects_cons_go env cfg st obj rest hc]
      exact (evalObject_grown env cfg st obj.key).trans (ih _)

theorem runPages_grown (env : Env) (cfg : Config) (st : DriverState)
    (pages : List (Except Unit Page)) :
    GrownSeparated cfg.hashThreshold st.hashes (runPages env cfg st pages).st.hashes := by
  induction pages generalizing st with
  | nil => exact .refl _
  | cons p rest ih =>
    cases p with
    | error e => rw [runPages_error]; exact .refl _
    | ok page =>
      cases page with
      | mk contents =>
        cases contents with
        | none => rw [runPages_noContents]; exact ih st
        | some objs =>
          rw [runPages_contents]
          by_cases hl : (runObjects env cfg st objs).hitLimit
          · simp only [hl, if_true]; exact runObjects_grown env cfg st objs
          · simp only [hl, if_false]
            exact (runObjects_grown env cfg st objs).trans (ih _)

/-- From the growth discipline to the pairwise separation of every
newly appended entry from everything before it. -/
theorem GrownSeparated.pairwise {t : Nat} {base l : List Fingerprint}
    (hg : GrownSeparated t base l) :
    ∀ i j, i < j → j < l.length → base.length ≤ j →
      t < hammingDist (l.getD i []) (l.getD j []) := by
  induction hg with
  | refl => intro i j hij hj hbase; omega
  | @snoc l' h hg hu ih =>
    intro i j hij hj hbase
    rw [List.length_append, List.length_singleton] at hj
    by_cases hjl : j < l'.length
    · rw [List.getD_append _ _ _ _ (by omega), List.getD_append _ _ _ _ hjl]
      exact ih i j hij hjl hbase
    · have hj' : j = l'.length := by omega
      subst hj'
      rw [List.getD_append _ _ _ _ (by omega)]
      rw [List.getD_append_right _ _ _ _ (by omega), Nat.sub_self]
      have hi' : i < l'.length := by omega
      have hmem : l'.getD i [] ∈ l' := by
        rw [List.getD_eq_getElem l' [] hi']
        exact List.getElem_mem hi'
      have := (isUniqueAgainst_eq_true_iff t h l').1 hu (l'.getD i []) hmem
      rw [hammingDist_comm] at this
      simpa using this

/-! ### Claim theorems -/

/-- C2: the duplicate decision returns true iff some entry of the set is
at Hamming distance at most the threshold from the candidate; the scan
stops at the first entry within the threshold; a permutation of the
entries does not change the boolean result; and the deployed threshold
is `HASH_THRESHOLD = 12`. -/
theorem C2_duplicate_decision :
    (∀ (t : Nat) (fp : Fingerprint) (l : List Fingerprint),
      isDuplicate t fp l = true ↔ ∃ h ∈ l, hammingDist fp h ≤ t) ∧
    (∀ (t : Nat) (fp h : Fingerprint) (rest : List Fingerprint),
      hammingDist fp h ≤ t → isUniqueAgainst t fp (h :: rest) = false) ∧
    (∀ (t : Nat) (fp : Fingerprint) (l l' : List Fingerprint),
      l.Perm l' → isDuplicate t fp l = isDuplicate t fp l') ∧
    defaultConfig.hashThreshold = 12 := by
  refine ⟨isDuplicate_eq_true_iff, ?_, ?_, rfl⟩
  · intro t fp h rest hle
    show (if hammingDist fp h ≤ t then false else isUniqueAgainst t fp rest) = false
    rw [if_pos hle]
  · intro t fp l l' hperm
    cases hd : isDuplicate t fp l with
    | true =>
      obtain ⟨h, hm, hle⟩ := (isDuplicate_eq_true_iff t fp l).1 hd
      exact ((isDuplicate_eq_true_iff t fp l').2 ⟨h, hperm.mem_iff.1 hm, hle⟩).symm
    | false =>
      cases hd' : isDuplicate t fp l' with
      | false => rfl
      | true =>
        obtain ⟨h, hm, hle⟩ := (isDuplicate_eq_true_iff t fp l').1 hd'
        have := (isDuplicate_eq_true_iff t fp l).2 ⟨h, hperm.mem_iff.2 hm, hle⟩
        rw [hd] at this
        exact absurd this (by simp)

/-- C2 witness: concrete instances of the short-circuit equation and of
order insensitivity. -/
theorem C2_duplicate_decision_witness :
    isUniqueAgainst 12 fpOnes (fpOnes :: [fpZeros]) = false ∧
    isDuplicate 12 fpOnes [fpZeros, fpOnes] = isDuplicate 12 fpOnes [fpOnes, fpZeros] :=
  ⟨C2_duplicate_decision.2.1 12 fpOnes fpOnes [fpZeros] (by decide),
    C2_duplicate_decision.2.2.1 12 fpOnes [fpZeros, fpOnes] [fpOnes, fpZeros]
      (List.Perm.swap fpOnes fpZeros [])⟩

/-- C9: against a singleton set holding a fingerprint at distance `d`
from the candidate, the duplicate decision is true for every threshold
at least `d` and false for every threshold below `d`. -/
theorem C9_threshold_monotonicity :
    ∀ (fp e : Fingerprint) (t : Nat),
      (hammingDist fp e ≤ t → isDuplicate t fp [e] = true) ∧
      (t < hammingDist fp e → isDuplicate t fp [e] = false) := by
  intro fp e t
  constructor
  · intro hle
    exact (isDuplicate_eq_true_iff t fp [e]).2 ⟨e, List.mem_singleton_self e, hle⟩
  · intro hlt
    cases hd : isDuplicate t fp [e] with
    | false => rfl
    | true =>
      obtain ⟨h, hm, hle⟩ := (isDuplicate_eq_true_iff t fp [e]).1 hd
      rw [List.mem_singleton] at hm
      subst hm
      omega

/-- C9 witness: `fpOnes` and `fpZeros` are 16 bits apart; the decision
flips between thresholds 16 and 3. -/
theorem C9_threshold_monotonicity_witness :
    isDuplicate 16 fpOnes [fpZeros] = true ∧ isDuplicate 3 fpOnes [fpZeros] = false :=
  ⟨(C9_threshold_monotonicity fpOnes fpZeros 16).1 (by decide),
    (C9_threshold_monotonicity fpOnes fpZeros 3).2 (by decide)⟩

/-- C4: a candidate whose derived filename is already present locally is
skipped with no state change and an empty trace: in particular no
`getObject` retrieval and no fingerprint computation happen for it. -/
theorem C4_fast_skip :
    ∀ (env : Env) (cfg : Config) (st : DriverState) (key : Str),
      isPdfName key = true →
      st.localFiles.contains (basename key) = true →
      evalObject env cfg st key = (st, []) ∧
      Event.getObject key ∉ (evalObject env cfg st key).2 ∧
      Event.fingerprintOf key ∉ (evalObject env cfg st key).2 := by
  intro env cfg st key h1 h2
  have h := evalObject_fastSkip env cfg st key h1 h2
  refine ⟨h, ?_, ?_⟩ <;> rw [h] <;> simp

/-- C4 witness. -/
theorem C4_fast_skip_witness :
    evalObject envW defaultConfig ⟨[], ["x.pdf".data], 0⟩ "dir/x.pdf".data =
      (⟨[], ["x.pdf".data], 0⟩, []) ∧
    Event.getObject "dir/x.pdf".data ∉
      (evalObject envW defaultConfig ⟨[], ["x.pdf".data], 0⟩ "dir/x.pdf".data).2 ∧
    Event.fingerprintOf "dir/x.pdf".data ∉
      (evalObject envW defaultConfig ⟨[], ["x.pdf".data], 0⟩ "dir/x.pdf".data).2 :=
  C4_fast_skip envW defaultConfig ⟨[], ["x.pdf".data], 0⟩ "dir/x.pdf".data
    (by decide) (by decide)

/-- C6: a candidate judged a duplicate causes no state change at all:
the returned state is exactly the input state and nothing is
persisted. -/
theorem C6_duplicate_frame :
    ∀ (env : Env) (cfg : Config) (st : DriverState) (key : Str)
      (pdf_bytes : Bytes) (img : Image) (tl : List Image),
      isPdfName key = true →
      st.localFiles.contains (basename key) = false →
      env.getObject key = .ok pdf_bytes →
      env.convert_from_bytes pdf_bytes 1 1 = .ok (img :: tl) →
      isDuplicate cfg.hashThreshold (env.phash img 8) st.hashes = true →
      evalObject env cfg st key = (st, [.getObject key, .fingerprintOf key]) ∧
      ∀ f, Event.persist f ∉ (evalObject env cfg st key).2 := by
  intro env cfg st key pdf_bytes img tl h1 h2 h3 h4 h5
  have h5' : isUniqueAgainst cfg.hashThreshold (env.phash img 8) st.hashes = false := by
    simpa [isDuplicate] using h5
  have h := evalObject_dup env cfg st key pdf_bytes img tl h1 h2 h3 h4 h5'
  refine ⟨h, ?_⟩
  intro f
  rw [h]
  simp

/-- C6 witness: a candidate hashing to `fpOnes` against a set already
holding `fpOnes`. -/
theorem C6_duplicate_frame_witness :
    evalObject (constEnv fpOnes false) defaultConfig ⟨[fpOnes], [], 1⟩ "k.pdf".data =
      (⟨[fpOnes], [], 1⟩,
        [.getObject "k.pdf".data, .fingerprintOf "k.pdf".data]) ∧
    ∀ f, Event.persist f ∉
      (evalObject (constEnv fpOnes false) defaultConfig ⟨[fpOnes], [], 1⟩ "k.pdf".data).2 :=
  C6_duplicate_frame (constEnv fpOnes false) defaultConfig ⟨[fpOnes], [], 1⟩
    "k.pdf".data [1] 0 [] (by decide) (by decide) rfl rfl (by decide)

/-- C5 counterexample: with a failing write, the accepted entry is
appended to the in-memory set and the count is incremented, yet no
backing file exists and nothing was persisted — the code appends before
it writes (lines 115-120), and the write failure is swallowed. -/
theorem C5_counterexample :
    (evalObject (constEnv fpOnes true) defaultConfig ⟨[], [], 0⟩ "k.pdf".data).1.hashes =
      [fpOnes] ∧
    (evalObject (constEnv fpOnes true) defaultConfig ⟨[], [], 0⟩ "k.pdf".data).1.count = 1 ∧
    (evalObject (constEnv fpOnes true) defaultConfig ⟨[], [], 0⟩ "k.pdf".data).1.localFiles =
      [] ∧
    Event.persist "k.pdf".data ∉
      (evalObject (constEnv fpOnes true) defaultConfig ⟨[], [], 0⟩ "k.pdf".data).2 := by
  refine ⟨by decide, by decide, by decide, by decide⟩

/-- C5 as amended: accepting a unique candidate appends the entry and
increments the count unconditionally; the backing file is persisted
exactly when the write succeeds, and a write failure leaves the
appended entry with no backing file. -/
theorem C5_acceptance_persistence :
    ∀ (env : Env) (cfg : Config) (st : DriverState) (key : Str)
      (pdf_bytes : Bytes) (img : Image) (tl : List Image),
      isPdfName key = true →
      st.localFiles.contains (basename key) = false →
      env.getObject key = .ok pdf_bytes →
      env.convert_from_bytes pdf_bytes 1 1 = .ok (img :: tl) →
      isUniqueAgainst cfg.hashThreshold (env.phash img 8) st.hashes = true →
      evalObject env cfg st key =
        if env.writeFails (basename key) then
          (⟨st.hashes ++ [env.phash img 8], st.localFiles, st.count + 1⟩,
            [.getObject key, .fingerprintOf key])
        else
          (⟨st.hashes ++ [env.phash img 8], st.localFiles ++ [basename key], st.count + 1⟩,
            [.getObject key, .fingerprintOf key, .persist (basename key)]) := by
  intro env cfg st key pdf_bytes img tl h1 h2 h3 h4 h5
  cases hw : env.writeFails (basename key) with
  | true =>
    rw [evalObject_acceptWriteFail env cfg st key pdf_bytes img tl h1 h2 h3 h4 h5 hw]
    simp
  | false =>
    rw [evalObject_acceptWriteOk env cfg st key pdf_bytes img tl h1 h2 h3 h4 h5 hw]
    simp

/-- C5 witness: the successful-write instance of the acceptance
equation. -/
theorem C5_acceptance_persistence_witness :
    evalObject (constEnv fpOnes false) defaultConfig ⟨[], [], 0⟩ "k.pdf".data =
      if (constEnv fpOnes false).writeFails (basename "k.pdf".data) then
        (⟨[fpOnes], [], 1⟩,
          [.getObject "k.pdf".data, .fingerprintOf "k.pdf".data])
      else
        (⟨[fpOnes], ["k.pdf".data], 1⟩,
          [.getObject "k.pdf".data, .fingerprintOf "k.pdf".data,
            .persist (basename "k.pdf".data)]) :=
  C5_acceptance_persistence (constEnv fpOnes false) defaultConfig ⟨[], [], 0⟩
    "k.pdf".data [1] 0 [] (by decide) (by decide) rfl rfl (by decide)

/-- C3: the target-limit check runs before every per-object evaluation,
so a scan at the cap returns immediately with no event; a bootstrap
count already at the limit makes `main` return before any page is
fetched or any object retrieved (empty trace); and the count never
exceeds the limit during discovery. -/
theorem C3_cap_respected :
    (∀ (env : Env) (cfg : Config) (st : DriverState) (obj : S3Obj)
      (rest : List S3Obj),
      cfg.targetLimit ≤ st.count →
      runObjects env cfg st (obj :: rest) = ⟨st, [], true⟩) ∧
    (∀ (env : Env) (cfg : Config) (existingAll : List Str)
      (pages : List (Except Unit Page)),
      cfg.targetLimit ≤ (bootstrap env existingAll).length →
      mainRun env cfg existingAll pages =
        ⟨⟨bootstrap env existingAll, existingAll, (bootstrap env existingAll).length⟩,
          [], .targetReached⟩) ∧
    (∀ (env : Env) (cfg : Config) (existingAll : List Str)
      (pages : List (Except Unit Page)),
      (bootstrap env existingAll).length ≤ cfg.targetLimit →
      (mainRun env cfg existingAll pages).st.count ≤ cfg.targetLimit) := by
  refine ⟨fun env cfg st obj rest h => runObjects_cons_stop env cfg st obj rest h,
    fun env cfg ex pages h => mainRun_alreadyMet env cfg ex pages h, ?_⟩
  intro env cfg ex pages h
  by_cases hb : cfg.targetLimit ≤ (bootstrap env ex).length
  · rw [mainRun_alreadyMet env cfg ex pages hb]
    exact h
  · rw [mainRun_go env cfg ex pages hb]
    exact runPages_count_le env cfg _ pages h

/-- C3 witness: with the limit set to 0 the scan stops before the first
object and `main` never reaches the page loop; the deployed
configuration keeps the count at or below 1000. -/
theorem C3_cap_respected_witness :
    runObjects envW ⟨0, 12⟩ ⟨[], [], 0⟩ [⟨"k.pdf".data⟩] = ⟨⟨[], [], 0⟩, [], true⟩ ∧
    mainRun envW ⟨0, 12⟩ [] pagesW =
      ⟨⟨bootstrap envW [], [], (bootstrap envW []).length⟩, [], .targetReached⟩ ∧
    (mainRun envW defaultConfig [] pagesW).st.count ≤ defaultConfig.targetLimit :=
  ⟨C3_cap_respected.1 envW ⟨0, 12⟩ ⟨[], [], 0⟩ ⟨"k.pdf".data⟩ [] (by decide),
    C3_cap_respected.2.1 envW ⟨0, 12⟩ [] pagesW (by decide),
    C3_cap_respected.2.2 envW defaultConfig [] pagesW (by decide)⟩

/-- C7: errors local to one candidate (retrieval failure, render
failure, render yielding no page) leave the state unchanged and the
scan continues with the next object, while an error raised by the
paginated enumeration itself ends the run at once, with the state
reached so far preserved and the remaining pages untouched. -/
theorem C7_error_propagation :
    (∀ (env : Env) (cfg : Config) (st : DriverState) (key : Str),
      isPdfName key = true →
      st.localFiles.contains (basename key) = false →
      env.getObject key = .error () →
      evalObject env cfg st key = (st, [.getObject key])) ∧
    (∀ (env : Env) (cfg : Config) (st : DriverState) (key : Str)
      (pdf_bytes : Bytes),
      isPdfName key = true →
      st.localFiles.contains (basename key) = false →
      env.getObject key = .ok pdf_bytes →
      env.convert_from_bytes pdf_bytes 1 1 = .error () →
      evalObject env cfg st key = (st, [.getObject key])) ∧
    (∀ (env : Env) (cfg : Config) (st : DriverState) (key : Str)
      (pdf_bytes : Bytes),
      isPdfName key = true →
      st.localFiles.contains (basename key) = false →
      env.getObject key = .ok pdf_bytes →
      env.convert_from_bytes pdf_bytes 1 1 = .ok [] →
      evalObject env cfg st key = (st, [.getObject key])) ∧
    (∀ (env : Env) (cfg : Config) (st : DriverState) (obj : S3Obj)
      (rest : List S3Obj),
      ¬ cfg.targetLimit ≤ st.count →
      (evalObject env cfg st obj.key).1 = st →
      runObjects env cfg st (obj :: rest) =
        ⟨(runObjects env cfg st rest).st,
          (evalObject env cfg st obj.key).2 ++ (runObjects env cfg st rest).trace,
          (runObjects env cfg st rest).hitLimit⟩) ∧
    (∀ (env : Env) (cfg : Config) (st : DriverState) (e : Unit)
      (rest : List (Except Unit Page)),
      runPages env cfg st (.error e :: rest) = ⟨st, [.fetchPage], .fatalError⟩) := by
  refine ⟨evalObject_getFail, evalObject_renderFail, evalObject_renderEmpty, ?_,
    fun env cfg st e rest => runPages_error env cfg st e rest⟩
  intro env cfg st obj rest h heq
  rw [runObjects_cons_go env cfg st obj rest h, heq]

/-- C7 witness: a failing retrieval is skipped with the state intact,
and a failing enumeration ends the run with the state intact. -/
theorem C7_error_propagation_witness :
    evalObject envGetFail defaultConfig ⟨[], [], 0⟩ "k.pdf".data =
      (⟨[], [], 0⟩, [.getObject "k.pdf".data]) ∧
    runPages envW defaultConfig ⟨[fpOnes], ["a.pdf".data], 1⟩ [.error ()] =
      ⟨⟨[fpOnes], ["a.pdf".data], 1⟩, [.fetchPage], .fatalError⟩ :=
  ⟨C7_error_propagation.1 envGetFail defaultConfig ⟨[], [], 0⟩ "k.pdf".data
      (by decide) (by decide) rfl,
    C7_error_propagation.2.2.2.2 envW defaultConfig ⟨[fpOnes], ["a.pdf".data], 1⟩ () []⟩

/-- C8: the bootstrap path and the discovery path compute the same
fingerprint on identical content: both render pages 1-1 only and hash
with `hash_size=8`, so whenever the renderer treats the on-disk file and
its byte payload alike, the two pipelines agree. -/
theorem C8_path_equivalence :
    ∀ (env : Env) (disk : Str → Bytes) (path : Str),
      (∀ f l, env.convert_from_path path f l = env.convert_from_bytes (disk path) f l) →
      bootstrapFingerprint env path = discoveryFingerprint env (disk path) := by
  intro env disk path hagree
  rw [bootstrapFingerprint, discoveryFingerprint, hagree]

/-- C8 witness: a renderer that treats paths and payloads alike. -/
theorem C8_path_equivalence_witness :
    bootstrapFingerprint (constEnv fpOnes false) "a.pdf".data =
      discoveryFingerprint (constEnv fpOnes false) [1] :=
  C8_path_equivalence (constEnv fpOnes false) (fun _ => [1]) "a.pdf".data
    (fun _ _ => rfl)

/-- The per-object evaluation never advances the page iterator. -/
theorem evalObject_no_fetch (env : Env) (cfg : Config) (st : DriverState)
    (key : Str) :
    Event.fetchPage ∉ (evalObject env cfg st key).2 := by
  cases hpdf : isPdfName key with
  | false => rw [evalObject_nonPdf env cfg st key hpdf]; simp
  | true =>
  cases hloc : st.localFiles.contains (basename key) with
  | true => rw [evalObject_fastSkip env cfg st key hpdf hloc]; simp
  | false =>
  cases hget : env.getObject key with
  | error e =>
    cases e
    rw [evalObject_getFail env cfg st key hpdf hloc hget]; simp
  | ok pdf_bytes =>
  cases hconv : env.convert_from_bytes pdf_bytes 1 1 with
  | error e =>
    cases e
    rw [evalObject_renderFail env cfg st key pdf_bytes hpdf hloc hget hconv]; simp
  | ok imgs =>
  cases imgs with
  | nil =>
    rw [evalObject_renderEmpty env cfg st key pdf_bytes hpdf hloc hget hconv]; simp
  | cons img tl =>
  cases huniq : isUniqueAgainst cfg.hashThreshold (env.phash img 8) st.hashes with
  | false =>
    rw [evalObject_dup env cfg st key pdf_bytes img tl hpdf hloc hget hconv huniq]
    simp
  | true =>
  cases hw : env.writeFails (basename key) with
  | true =>
    rw [evalObject_acceptWriteFail env cfg st key pdf_bytes img tl hpdf hloc hget hconv huniq hw]
    simp
  | false =>
    rw [evalObject_acceptWriteOk env cfg st key pdf_bytes img tl hpdf hloc hget hconv huniq hw]
    simp

/-- The object loop of one page never advances the page iterator. -/
theorem runObjects_fetch_count (env : Env) (cfg : Config) (st : DriverState)
    (objs : List S3Obj) :
    (runObjects env cfg st objs).trace.count Event.fetchPage = 0 := by
  induction objs generalizing st with
  | nil => rfl
  | cons obj rest ih =>
    by_cases hc : cfg.targetLimit ≤ st.count
    · rw [runObjects_cons_stop env cfg st obj rest hc]; rfl
    · rw [runObjects_cons_go env cfg st obj rest hc]
      have h1 : (evalObject env cfg st obj.key).2.count Event.fetchPage = 0 :=
        List.count_eq_zero.2 (evalObject_no_fetch env cfg st obj.key)
      simp only [List.count_append, h1, ih]

/-- C10: a page without a `Contents` entry is skipped and the scan
continues with the remaining pages; and the run ends with source
exhaustion only once every page of the enumeration has been consumed
(the trace then holds exactly one iterator advance per page). -/
theorem C10_empty_page :
    (∀ (env : Env) (cfg : Config) (st : DriverState)
      (rest : List (Except Unit Page)),
      runPages env cfg st (.ok ⟨none⟩ :: rest) =
        ⟨(runPages env cfg st rest).st, .fetchPage :: (runPages env cfg st rest).trace,
          (runPages env cfg st rest).outcome⟩) ∧
    (∀ (env : Env) (cfg : Config) (st : DriverState),
      runPages env cfg st [] = ⟨st, [], .sourceExhausted⟩) ∧
    (∀ (env : Env) (cfg : Config) (st : DriverState)
      (pages : List (Except Unit Page)),
      (runPages env cfg st pages).outcome = .sourceExhausted →
      (runPages env cfg st pages).trace.count Event.fetchPage = pages.length) := by
  refine ⟨fun env cfg st rest => runPages_noContents env cfg st rest,
    fun env cfg st => runPages_nil env cfg st, ?_⟩
  intro env cfg st pages
  induction pages generalizing st with
  | nil => intro _; rfl
  | cons p rest ih =>
    cases p with
    | error e =>
      rw [runPages_error]
      intro h
      exact absurd h (by simp)
    | ok page =>
      cases page with
      | mk contents =>
        cases contents with
        | none =>
          rw [runPages_noContents]
          intro h
          have := ih st h
          simp only [List.count_cons, this, List.length_cons]
          simp
        | some objs =>
          rw [runPages_contents]
          by_cases hl : (runObjects env cfg st objs).hitLimit = true
          · rw [if_pos hl]
            intro h
            exact absurd h (by simp)
          · rw [if_neg hl]
            intro h
            have h2 := ih (runObjects env cfg st objs).st h
            simp [List.count_cons, List.count_append, h2, runObjects_fetch_count]

/-- C10 witness: one contentless page is skipped and source exhaustion
follows, with one iterator advance counted for the one page. -/
theorem C10_empty_page_witness :
    runPages envW defaultConfig ⟨[], [], 0⟩ [.ok ⟨none⟩] =
      ⟨(runPages envW defaultConfig ⟨[], [], 0⟩ []).st,
        .fetchPage :: (runPages envW defaultConfig ⟨[], [], 0⟩ []).trace,
        (runPages envW defaultConfig ⟨[], [], 0⟩ []).outcome⟩ ∧
    (runPages envW defaultConfig ⟨[], [], 0⟩ [.ok ⟨none⟩]).trace.count Event.fetchPage =
      ([.ok ⟨none⟩] : List (Except Unit Page)).length :=
  ⟨C10_empty_page.1 envW defaultConfig ⟨[], [], 0⟩ [],
    C10_empty_page.2.2 envW defaultConfig ⟨[], [], 0⟩ [.ok ⟨none⟩] rfl⟩

/-- C1 counterexample: two pre-existing local files that render to the
same page hash to identical fingerprints, and the Bootstrap Loader
appends both with no mutual-uniqueness check (lines 49-57), so the
final Template Set of this run violates the claimed pairwise
separation. -/
theorem C1_counterexample :
    ¬ pairwiseSeparated HASH_THRESHOLD
      (mainRun (constEnv fpOnes false) defaultConfig
        ["a.pdf".data, "b.pdf".data] []).st.hashes := by
  intro h
  have h3 := h 0 1 (by decide) (by decide) (by decide)
  revert h3
  decide

/-- C1 as amended: the pairwise separation holds for every pair of
distinct entries of the final Template Set of which at least one was
appended by the Discovery Driver; pairs of bootstrap-loaded entries
carry no such guarantee. -/
theorem C1_separation_of_discovered :
    ∀ (env : Env) (cfg : Config) (existingAll : List Str)
      (pages : List (Except Unit Page)) (i j : Nat),
      i < (mainRun env cfg existingAll pages).st.hashes.length →
      j < (mainRun env cfg existingAll pages).st.hashes.length →
      i ≠ j →
      ((bootstrap env existingAll).length ≤ i ∨ (bootstrap env existingAll).length ≤ j) →
      cfg.hashThreshold <
        hammingDist ((mainRun env cfg existingAll pages).st.hashes.getD i [])
          ((mainRun env cfg existingAll pages).st.hashes.getD j []) := by
  intro env cfg ex pages i j hi hj hij hdisc
  have hgrown : GrownSeparated cfg.hashThreshold (bootstrap env ex)
      (mainRun env cfg ex pages).st.hashes := by
    by_cases hb : cfg.targetLimit ≤ (bootstrap env ex).length
    · rw [mainRun_alreadyMet env cfg ex pages hb]
      exact .refl _
    · rw [mainRun_go env cfg ex pages hb]
      exact runPages_grown env cfg
        ⟨bootstrap env ex, ex, (bootstrap env ex).length⟩ pages
  rcases Nat.lt_or_ge i j with hlt | hge
  · exact hgrown.pairwise i j hlt hj (by omega)
  · have hlt' : j < i := by omega
    rw [hammingDist_comm]
    exact hgrown.pairwise j i hlt' hi (by omega)

/-- C1 amended witness: a run that discovers two documents; the
discovered entries are pairwise more than the threshold apart. -/
theorem C1_separation_of_discovered_witness :
    defaultConfig.hashThreshold <
      hammingDist ((mainRun envW defaultConfig [] pagesW).st.hashes.getD 0 [])
        ((mainRun envW defaultConfig [] pagesW).st.hashes.getD 1 []) :=
  C1_separation_of_discovered envW defaultConfig [] pagesW 0 1
    (by decide) (by decide) (by decide) (Or.inl (by decide))

end TemplateDiscovery
